import Mathlib

/-!
# TradeFly-Backend — verification of the options-analytics core

Shallow embedding of the position lifecycle (`position_tracker.py`,
`paper_trading.py`), the Greeks / implied-volatility engine
(`greeks_calculator.py`), the risk manager and the scalping strategy
evaluator (`options_strategies.py`, `improved_filters.py`,
`technical_analysis.py`, `options_models.py`).

Modelling conventions:
* Python floats are embedded as exact rationals (`ℚ`); the claims under
  verification are about comparisons, assignments and exact algebraic
  relations, which floats and rationals share.
* `datetime` values are embedded as rationals (minutes on a single time
  axis); wall-clock reads (`datetime.now()`) become explicit parameters.
* Python string parsing of dates (`strptime` inside `try/except`) is
  embedded as an `Option` field: `none` models an unparseable string.
* Logging, JSON persistence (`save_trades` / `save_positions`) and the
  training-data recording are I/O side effects with no influence on the
  in-memory record; they are omitted.
* Python f-string numeric formatting (`{x:.2f}` and similar) is abstracted
  by `fmtQ`; no claim depends on the digits of a formatted number.
-/

/-- Stand-in for Python numeric string formatting inside messages. -/
def fmtQ (q : ℚ) : String := toString q

/-- Python `str.lower()` (ASCII case folding), written as a structurally
recursive map over the characters so concrete instances evaluate. -/
def pyLower (s : String) : String := ⟨s.data.map Char.toLower⟩

namespace PositionTracker

/-- Model of `position_tracker.Position` (dataclass).  Prices are `ℚ`, times are `ℚ`
(minutes), `expiration` is kept as the result of parsing the `"YYYY-MM-DD"`
string (`none` = unparseable).  Fields that are `Optional[float]` /
`Optional[datetime]` in the source are `Option ℚ`. -/
structure Position where
  position_id : String
  signal_id : String
  symbol : String
  strategy : String
  action : String
  entry_price : ℚ
  entry_time : ℚ
  contracts_bought : ℕ
  target_price : ℚ
  stop_loss : ℚ
  strike : ℚ
  option_type : String
  expiration : Option ℚ
  status : String := "active"
  current_price : Option ℚ := none
  last_update : Option ℚ := none
  exit_price : Option ℚ := none
  exit_time : Option ℚ := none
  exit_reason : Option String := none
  profit_loss : Option ℚ := none
  profit_loss_percent : Option ℚ := none
  highest_price : Option ℚ := none
  breakeven_moved : Bool := false
  -- the partial-profit-taken flag of the dataclass is never read or written
  -- by the operations under verification and is omitted
  notes : String := ""
  deriving Repr, DecidableEq

/-- Model of `PositionTracker.add_position`: creates the `Position` record in state
`"active"` with `current_price = highest_price = entry_price`.  The id suffix
built from `datetime.now().strftime(...)` is passed in as `nowStr`; `now` is
the wall-clock time used for `entry_time` / `last_update`. -/
def add_position (signal_id symbol strategy action : String)
    (entry_price target_price stop_loss strike : ℚ)
    (option_type : String) (expiration : Option ℚ)
    (contracts_bought : ℕ) (notes : String) (now : ℚ) (nowStr : String) :
    Position :=
  { position_id := symbol ++ "_" ++ signal_id ++ "_" ++ nowStr
    signal_id := signal_id
    symbol := symbol
    strategy := strategy
    action := action
    entry_price := entry_price
    entry_time := now
    contracts_bought := contracts_bought
    target_price := target_price
    stop_loss := stop_loss
    strike := strike
    option_type := option_type
    expiration := expiration
    status := "active"
    current_price := some entry_price
    last_update := some now
    highest_price := some entry_price
    notes := notes }

/-- Model of `PositionTracker.update_position`, per position (the list lookup by id is
outside this transition; `now` embeds the `datetime.now()` read).  A
non-active position is returned unchanged; otherwise only `current_price`,
`last_update`, `highest_price`, `profit_loss`, `profit_loss_percent` are
refreshed — there is no auto-close here. -/
def update_position (p : Position) (current_price : ℚ) (now : ℚ) : Position :=
  if p.status ≠ "active" then p
  else
    { p with
      current_price := some current_price
      last_update := some now
      highest_price :=
        match p.highest_price with
        | none => some current_price
        | some h => if current_price > h then some current_price else some h
      profit_loss :=
        some ((current_price - p.entry_price) * 100 * p.contracts_bought)
      profit_loss_percent :=
        some ((current_price - p.entry_price) / p.entry_price * 100) }

/-- Model of `PositionTracker.close_position`, per position.  Note: the source does
NOT check `status` here — it unconditionally marks the position closed and
overwrites the exit fields from the supplied `exit_price`. -/
def close_position (p : Position) (exit_price : ℚ) (exit_reason : String)
    (now : ℚ) : Position :=
  { p with
    status := "closed"
    exit_price := some exit_price
    exit_time := some now
    exit_reason := some exit_reason
    profit_loss := some ((exit_price - p.entry_price) * 100 * p.contracts_bought)
    profit_loss_percent := some ((exit_price - p.entry_price) / p.entry_price * 100) }

/-- A sequence of `update_position` calls: `(price, time)` pairs, applied
oldest first. -/
def run_updates (p : Position) (l : List (ℚ × ℚ)) : Position :=
  l.foldl (fun q pt => update_position q pt.1 pt.2) p

/-- Model of `position_tracker.ExitReason` -/
inductive ExitReason where
  | targetHit
  | stopHit
  | timeExit
  | expirationWarning
  | trailingStop
  | breakeven
  deriving Repr, DecidableEq

/-- Model of `position_tracker.ExitSignal` (the construction-time `timestamp`
metadata field is omitted). -/
structure ExitSignal where
  position_id : String
  reason : ExitReason
  urgency : String
  message : String
  current_price : ℚ
  suggested_exit_price : ℚ
  profit_loss_percent : ℚ
  deriving Repr, DecidableEq

/-- Model of `PositionTracker.check_exit_signals`, per position; `now` embeds the
`datetime.now()` reads.  A purely derived advisory list — the position is
only read.  Times are minutes, so `timedelta(minutes=5)` is `5` and
`timedelta(days=5)` is `7200`; `(exp - now).days` is `⌊(exp - now)/1440⌋`.
Python truthiness of `position.highest_price` (`None` and `0.0` are falsy)
and of the `x or default` fallbacks is modelled explicitly. -/
def check_exit_signals (p : Position) (now : ℚ) : List ExitSignal :=
  if p.status ≠ "active" then []
  else
    let current :=
      match p.current_price with
      | none => p.entry_price
      | some c => if c = 0 then p.entry_price else c
    let pnl := p.profit_loss_percent.getD 0
    let s1 :=
      if current ≥ p.target_price then
        [⟨p.position_id, .targetHit, "high",
          "TARGET HIT! " ++ fmtQ pnl ++ "% profit - SELL NOW",
          current, current, pnl⟩]
      else []
    let s2 :=
      if current ≤ p.stop_loss then
        [⟨p.position_id, .stopHit, "high",
          "STOP LOSS HIT! " ++ fmtQ pnl ++ "% loss - CUT LOSSES NOW",
          current, current, pnl⟩]
      else []
    let s3 :=
      match p.highest_price with
      | some h =>
          if pnl ≥ 15 ∧ h ≠ 0 ∧ current ≤ h * (85/100) then
            [⟨p.position_id, .trailingStop, "high",
              "Trailing stop hit! now " ++ fmtQ pnl ++ "% - LOCK PROFITS",
              current, current, pnl⟩]
          else []
      | none => []
    let s4 :=
      if pnl ≥ 10 ∧ p.breakeven_moved = false then
        [⟨p.position_id, .breakeven, "medium",
          "Up " ++ fmtQ pnl ++ "%! Consider moving stop to breakeven",
          current, p.entry_price, pnl⟩]
      else []
    let time_held := now - p.entry_time
    let s5 :=
      if p.strategy = "SCALPING" then
        if time_held > 5 ∧ |pnl| < 5 then
          [⟨p.position_id, .timeExit, "medium",
            "Held with sideways movement - consider exiting",
            current, current, pnl⟩]
        else []
      else if p.strategy = "SWING" then
        if time_held > 7200 then
          [⟨p.position_id, .timeExit, "medium",
            "Swing trade time limit reached", current, current, pnl⟩]
        else []
      else []
    let s6 :=
      match p.expiration with
      | some exp =>
          let days_to_exp : ℤ := ⌊(exp - now) / 1440⌋
          if days_to_exp ≤ 1 then
            [⟨p.position_id, .expirationWarning, "high",
              "EXPIRES IN " ++ toString days_to_exp ++ " DAY(S)! - EXIT SOON",
              current, current, pnl⟩]
          else if days_to_exp ≤ 3 then
            [⟨p.position_id, .expirationWarning, "medium",
              "Expires in " ++ toString days_to_exp ++ " days",
              current, current, pnl⟩]
          else []
      | none => []
    s1 ++ s2 ++ s3 ++ s4 ++ s5 ++ s6

end PositionTracker

namespace PaperTrading

/-- Model of `paper_trading.TradeOutcome` -/
inductive TradeOutcome where
  | pending
  | hitTarget
  | hitStop
  | expiredWorthless
  | closedManual
  | breakeven
  deriving Repr, DecidableEq

/-- Model of `paper_trading.PaperTrade` (dataclass), restricted to the fields read or
written by `update_trade` / `close_trade`.  `expiration` holds the result of
`datetime.strptime(trade.expiration, "%Y-%m-%d")` (`none` = the parse raises
and the `except` swallows it).  The advisory `exit_signals` list (recomputed
on update, never consulted by the auto-close logic) and the entry-snapshot
feature fields are not modelled: no transition reads them. -/
structure PaperTrade where
  signal_id : String
  symbol : String
  entry_price : ℚ
  entry_time : ℚ
  target_price : ℚ
  stop_loss : ℚ
  expiration : Option ℚ
  outcome : TradeOutcome := .pending
  exit_price : Option ℚ := none
  exit_time : Option ℚ := none
  current_price : Option ℚ := none
  last_update : Option ℚ := none
  profit_loss : Option ℚ := none
  profit_loss_percent : Option ℚ := none
  highest_price : Option ℚ := none
  notes : String := ""
  deriving Repr, DecidableEq

/-- Model of `PaperTradingEngine.update_trade`, per trade (the list lookup by
`signal_id` is outside this transition).  Mirrors the source order: early
return when not pending; refresh price / time / highest / P-L; then check
target, then stop, then expiration. -/
def update_trade (t : PaperTrade) (current_price : ℚ) (current_time : ℚ) :
    PaperTrade :=
  if t.outcome ≠ TradeOutcome.pending then t
  else
    let t1 : PaperTrade :=
      { t with
        current_price := some current_price
        last_update := some current_time
        highest_price :=
          match t.highest_price with
          | none => some current_price
          | some h => if current_price > h then some current_price else some h
        profit_loss := some (current_price - t.entry_price)
        profit_loss_percent :=
          some ((current_price - t.entry_price) / t.entry_price * 100) }
    if current_price ≥ t1.target_price then
      { t1 with
        outcome := TradeOutcome.hitTarget
        exit_price := some t1.target_price
        exit_time := some current_time
        profit_loss := some (t1.target_price - t1.entry_price)
        profit_loss_percent :=
          some ((t1.target_price - t1.entry_price) / t1.entry_price * 100)
        notes := "target_hit" }
    else if current_price ≤ t1.stop_loss then
      { t1 with
        outcome := TradeOutcome.hitStop
        exit_price := some t1.stop_loss
        exit_time := some current_time
        profit_loss := some (t1.stop_loss - t1.entry_price)
        profit_loss_percent :=
          some ((t1.stop_loss - t1.entry_price) / t1.entry_price * 100)
        notes := "stop_hit" }
    else
      match t1.expiration with
      | some exp_date =>
          if current_time ≥ exp_date then
            { t1 with
              outcome := TradeOutcome.expiredWorthless
              exit_price := some 0
              exit_time := some current_time
              profit_loss := some (-t1.entry_price)
              profit_loss_percent := some (-100)
              notes := "Expired" }
          else t1
      | none => t1

/-- Model of `PaperTradingEngine.close_trade`, per trade.  Unlike the tracker's
`close_position`, this one refuses to act on a non-pending trade. -/
def close_trade (t : PaperTrade) (exit_price : ℚ) (reason : String)
    (now : ℚ) : PaperTrade :=
  if t.outcome ≠ TradeOutcome.pending then t
  else
    let pl := exit_price - t.entry_price
    let plp := pl / t.entry_price * 100
    { t with
      exit_price := some exit_price
      exit_time := some now
      profit_loss := some pl
      profit_loss_percent := some plp
      notes := reason
      outcome :=
        if |plp| < 5 then TradeOutcome.breakeven
        else if pl > 0 then TradeOutcome.hitTarget
        else TradeOutcome.hitStop }

end PaperTrading

namespace GreeksCalculator

/-- The transcendental primitives the source gets from `math` / `scipy.stats`
(`norm.cdf`, `norm.pdf`, `math.log`, `math.sqrt`, `math.exp`).  The embedding
is parametric in them: every claim verified here holds for arbitrary values
of these functions, so nothing about the code's control flow or algebra is
lost by not fixing them to the real-analytic functions. -/
structure MathPrims where
  cdf : ℚ → ℚ
  pdf : ℚ → ℚ
  log : ℚ → ℚ
  sqrt : ℚ → ℚ
  exp : ℚ → ℚ

/-- Trivial instantiation of the math primitives, used to evaluate the
engine at concrete inputs. -/
def idPrims : MathPrims := ⟨id, id, id, id, id⟩

/-- Python `round(x, 4)` on exact values: round half to even at 4 decimal
places (banker's rounding, Python's `round` semantics). -/
def roundHalfEven (q : ℚ) : ℤ :=
  let n := ⌊q⌋
  let f := q - n
  if f < 1/2 then n
  else if f > 1/2 then n + 1
  else if Even n then n else n + 1

/-- Model of `round(x, 4)` -/
def round4 (q : ℚ) : ℚ := (roundHalfEven (q * 10000) : ℚ) / 10000

/-- The result dictionary of `calculate_all_greeks`. -/
structure GreeksOut where
  delta : ℚ
  gamma : ℚ
  theta : ℚ
  vega : ℚ
  rho : ℚ
  deriving Repr, DecidableEq

/-- Model of `GreeksCalculator._calculate_d1_d2` -/
def calculate_d1_d2 (m : MathPrims) (S K T sigma r : ℚ) : ℚ × ℚ :=
  if T ≤ 0 ∨ sigma ≤ 0 then (0, 0)
  else
    let d1 := (m.log (S / K) + (r + 1/2 * sigma ^ 2) * T) / (sigma * m.sqrt T)
    (d1, d1 - sigma * m.sqrt T)

/-- Model of `GreeksCalculator._calculate_delta` -/
def calculate_delta (m : MathPrims) (d1 : ℚ) (option_type : String) : ℚ :=
  if pyLower option_type = "call" then m.cdf d1 else m.cdf d1 - 1

/-- Model of `GreeksCalculator._calculate_gamma` -/
def calculate_gamma (m : MathPrims) (S d1 sigma T : ℚ) : ℚ :=
  if T ≤ 0 ∨ sigma ≤ 0 ∨ S ≤ 0 then 0
  else m.pdf d1 / (S * sigma * m.sqrt T)

/-- Model of `GreeksCalculator._calculate_theta` -/
def calculate_theta (m : MathPrims) (S K d1 d2 sigma r T : ℚ)
    (option_type : String) : ℚ :=
  if T ≤ 0 then 0
  else
    let term1 := -(S * m.pdf d1 * sigma) / (2 * m.sqrt T)
    let theta_annual :=
      if pyLower option_type = "call" then
        term1 + (-r * K * m.exp (-r * T) * m.cdf d2)
      else
        term1 + (r * K * m.exp (-r * T) * m.cdf (-d2))
    theta_annual / 365

/-- Model of `GreeksCalculator._calculate_vega` -/
def calculate_vega (m : MathPrims) (S d1 T : ℚ) : ℚ :=
  if T ≤ 0 then 0
  else S * m.pdf d1 * m.sqrt T / 100

/-- Model of `GreeksCalculator._calculate_rho` -/
def calculate_rho (m : MathPrims) (K d2 T r : ℚ) (option_type : String) : ℚ :=
  if T ≤ 0 then 0
  else
    (if pyLower option_type = "call" then K * T * m.exp (-r * T) * m.cdf d2
     else -K * T * m.exp (-r * T) * m.cdf (-d2)) / 100

/-- Model of `GreeksCalculator.calculate_all_greeks` -/
def calculate_all_greeks (m : MathPrims) (underlying_price strike_price : ℚ)
    (days_to_expiration : ℤ) (implied_volatility : ℚ) (risk_free_rate : ℚ)
    (option_type : String) : GreeksOut :=
  let T : ℚ := (days_to_expiration : ℚ) / 365
  if T ≤ 0 then ⟨0, 0, 0, 0, 0⟩
  else
    let d12 := calculate_d1_d2 m underlying_price strike_price T
      implied_volatility risk_free_rate
    let delta := calculate_delta m d12.1 option_type
    let gamma := calculate_gamma m underlying_price d12.1 implied_volatility T
    let theta := calculate_theta m underlying_price strike_price d12.1 d12.2
      implied_volatility risk_free_rate T option_type
    let vega := calculate_vega m underlying_price d12.1 T
    let rho := calculate_rho m strike_price d12.2 T risk_free_rate option_type
    ⟨round4 delta, round4 gamma, round4 theta, round4 vega, round4 rho⟩

/-- Model of `GreeksCalculator._black_scholes_price` -/
def black_scholes_price (m : MathPrims) (S K T sigma r : ℚ)
    (option_type : String) : ℚ :=
  if T ≤ 0 then
    if pyLower option_type = "call" then max 0 (S - K) else max 0 (K - S)
  else
    let d12 := calculate_d1_d2 m S K T sigma r
    let price :=
      if pyLower option_type = "call" then
        S * m.cdf d12.1 - K * m.exp (-r * T) * m.cdf d12.2
      else
        K * m.exp (-r * T) * m.cdf (-d12.2) - S * m.cdf (-d12.1)
    max 0 price

/-- The Newton-Raphson loop of `calculate_implied_volatility`: `fuel` is the
number of iterations still allowed (`max_iterations` at the top call), `iv`
the current iterate.  A `break` on tiny vega returns the current iterate;
the tolerance check returns the freshly clamped one (the source reassigns
`iv` before testing `price_diff`); exhausting the loop returns the last
iterate. -/
def iv_loop (m : MathPrims) (option_price S K T r : ℚ) (option_type : String)
    (tolerance : ℚ) : ℕ → ℚ → ℚ
  | 0, iv => iv
  | fuel + 1, iv =>
    let price := black_scholes_price m S K T iv r option_type
    let d12 := calculate_d1_d2 m S K T iv r
    let vega := calculate_vega m S d12.1 T * 100
    if |vega| < 1 / 10 ^ 10 then iv
    else
      let price_diff := option_price - price
      let iv1 := iv + price_diff / vega
      let iv2 := max (1/1000) (min 5 iv1)
      if |price_diff| < tolerance then iv2
      else iv_loop m option_price S K T r option_type tolerance fuel iv2

/-- Model of `GreeksCalculator.calculate_implied_volatility` -/
def calculate_implied_volatility (m : MathPrims)
    (option_price underlying_price strike_price : ℚ)
    (days_to_expiration : ℤ) (risk_free_rate : ℚ) (option_type : String)
    (max_iterations : ℕ) (tolerance : ℚ) : ℚ :=
  let time_to_expiration : ℚ := (days_to_expiration : ℚ) / 365
  iv_loop m option_price underlying_price strike_price time_to_expiration
    risk_free_rate option_type tolerance max_iterations (30/100)

end GreeksCalculator

namespace RiskManager

/-- Model of `RiskManager.MAX_DAILY_LOSS` -/
def MAX_DAILY_LOSS : ℚ := 3/100

/-- Model of `RiskManager.MAX_CONCURRENT_TRADES` -/
def MAX_CONCURRENT_TRADES : ℕ := 3

/-- Model of `RiskManager.should_take_trade` -/
def should_take_trade (current_daily_pnl account_balance : ℚ)
    (active_trades : ℕ) : Bool × String :=
  let max_loss := account_balance * MAX_DAILY_LOSS
  if current_daily_pnl < -max_loss then
    (false, "Daily loss limit reached: $" ++ fmtQ current_daily_pnl)
  else if active_trades ≥ MAX_CONCURRENT_TRADES then
    (false, "Max concurrent trades reached: " ++ toString active_trades)
  else
    (true, "OK")

end RiskManager

namespace Strategies

/-- Model of `options_models.SignalAction` -/
inductive SignalAction where
  | buyCall
  | buyPut
  | followFlow
  | wait
  deriving Repr, DecidableEq

/-- Model of `options_models.Greeks` -/
structure Greeks where
  delta : ℚ
  gamma : ℚ
  theta : ℚ
  vega : ℚ
  rho : ℚ
  deriving Repr, DecidableEq

/-- Model of `options_models.ImpliedVolatility` (metrics record; the optional
historical-volatility field, never read on the scalping path, is omitted). -/
structure IVMetrics where
  iv : ℚ
  iv_rank : ℚ
  iv_percentile : ℚ
  deriving Repr, DecidableEq

/-- Model of `options_models.VolumeMetrics` (the 30-day-average and ratio fields are
not read by the scalping path and are omitted). -/
structure VolumeMetrics where
  volume : ℤ
  open_interest : ℤ
  deriving Repr, DecidableEq

/-- Model of `options_models.OptionPricing`.  `mark` is a stored field in the source
(supplied by the data adapter), not recomputed from bid/ask here. -/
structure OptionPricing where
  bid : ℚ
  ask : ℚ
  last : ℚ
  mark : ℚ
  deriving Repr, DecidableEq

/-- Model of `OptionPricing.spread` (property) -/
def OptionPricing.spread (p : OptionPricing) : ℚ := p.ask - p.bid

/-- Model of `OptionPricing.is_liquid` (property): `spread < 7.00` -/
def OptionPricing.is_liquid (p : OptionPricing) : Bool := p.spread < 7

/-- Model of `options_models.OptionContract`, restricted to the fields the scalping
evaluator and its filters read.  `expiration` is a `date` value (epoch day
number); note it is a date object, not a string. -/
structure OptionContract where
  symbol : String
  strike : ℚ
  expiration : ℤ
  option_type : String
  pricing : OptionPricing
  volume_metrics : VolumeMetrics
  greeks : Greeks
  iv_metrics : IVMetrics
  underlying_price : ℚ
  deriving Repr, DecidableEq

/-- Model of `TechnicalAnalysis.momentum`: percentage change over `period` bars. -/
def momentum (prices : List ℚ) (period : ℕ) : ℚ :=
  if prices.length < period + 1 then 0
  else
    let current := prices.getD (prices.length - 1) 0
    let previous := prices.getD (prices.length - (period + 1)) 0
    if previous = 0 then 0
    else (current - previous) / previous

/-- Model of `TechnicalAnalysis.rsi`: relative strength index over `period` bars.
`np.mean(xs[-period:])` is the sum of the final slice divided by its
length. -/
def rsi (prices : List ℚ) (period : ℕ) : ℚ :=
  if prices.length < period + 1 then 50
  else
    let deltas := List.zipWith (fun a b => b - a) prices prices.tail
    let gains := deltas.map (fun d => if d > 0 then d else 0)
    let losses := deltas.map (fun d => if d < 0 then -d else 0)
    let gtail := gains.drop (gains.length - period)
    let ltail := losses.drop (losses.length - period)
    let avg_gain := gtail.sum / gtail.length
    let avg_loss := ltail.sum / ltail.length
    if avg_loss = 0 then 100
    else
      let rs := avg_gain / avg_loss
      100 - 100 / (1 + rs)

/-- Model of `TimeOfDayFilter.is_high_edge_window`: the wall-clock read
`datetime.now(ET)` becomes the explicit argument `nowET`, minutes after
midnight Eastern time.  Windows: 9:30-11:00 (570-660) and 15:00-16:00
(900-960), both ends inclusive. -/
def is_high_edge_window (nowET : ℕ) : Bool :=
  (570 ≤ nowET ∧ nowET ≤ 660) ∨ (900 ≤ nowET ∧ nowET ≤ 960)

/-- Model of `ImprovedFilters.check_volume_quality` -/
def check_volume_quality (c : OptionContract) : Bool × String :=
  if c.volume_metrics.volume < 100 then
    (false, "Volume too low: " ++ toString c.volume_metrics.volume)
  else if c.volume_metrics.open_interest < 50 then
    (false, "No real interest: OI=" ++ toString c.volume_metrics.open_interest)
  else
    let volume_to_oi : ℚ :=
      (c.volume_metrics.volume : ℚ) / (max c.volume_metrics.open_interest 1 : ℤ)
    if volume_to_oi > 10 then
      (false, "Suspicious volume/OI x: " ++ fmtQ volume_to_oi)
    else (true, "Volume quality good")

/-- Model of `ImprovedFilters.check_price_action` -/
def check_price_action (c : OptionContract) (price_momentum_1m : ℚ) :
    Bool × String :=
  if c.greeks.delta > 0 then
    if price_momentum_1m ≤ 0 then
      (false, "CALL but stock moving DOWN " ++ fmtQ price_momentum_1m)
    else if price_momentum_1m < 2/1000 then
      (false, "CALL but weak momentum " ++ fmtQ price_momentum_1m)
    else (true, "Price action supports trade")
  else
    if price_momentum_1m ≥ 0 then
      (false, "PUT but stock moving UP " ++ fmtQ price_momentum_1m)
    else if price_momentum_1m > -(2/1000) then
      (false, "PUT but weak momentum " ++ fmtQ price_momentum_1m)
    else (true, "Price action supports trade")

/-- Model of `ImprovedFilters.check_time_to_expiration`.  In the source this calls
`datetime.strptime(contract.expiration, "%Y-%m-%d")`, but `expiration` is a
`date` object (pydantic model), not a string, so `strptime` raises
`TypeError`; the bare `except: pass` swallows it and the function falls
through to its success return.  The filter therefore always passes. -/
def check_time_to_expiration (_c : OptionContract) : Bool × String :=
  (true, "Time to expiration acceptable")

/-- Model of `ImprovedFilters.check_implied_volatility` -/
def check_implied_volatility (c : OptionContract) : Bool × String :=
  let iv := c.iv_metrics.iv
  if iv < 15/100 then (false, "IV too low - dead option")
  else if iv > 2 then (false, "IV too high - overpriced")
  else (true, "IV acceptable")

/-- Model of `ImprovedFilters.check_spread_quality` -/
def check_spread_quality (c : OptionContract) : Bool × String :=
  let spread := c.pricing.spread
  let mark := c.pricing.mark
  if mark = 0 then (false, "No market price")
  else
    let spread_percent := spread / mark * 100
    if spread_percent > 30 then
      (false, "Spread too wide: " ++ fmtQ spread_percent)
    else if spread > 1 ∧ mark < 5 then
      (false, "Spread too wide for cheap option")
    else (true, "Spread quality good")

/-- Model of `ImprovedFilters.check_greeks_quality` -/
def check_greeks_quality (c : OptionContract) : Bool × String :=
  let delta := |c.greeks.delta|
  let theta := c.greeks.theta
  if delta < 25/100 then (false, "Delta too low - too far OTM")
  else if delta > 85/100 then (false, "Delta too high - too expensive")
  else
    let mark := c.pricing.mark
    if mark > 0 ∧ |theta / mark| > 15/100 then
      (false, "Theta decay too high")
    else (true, "Greeks quality good")

/-- Model of `ImprovedFilters.check_moneyness` -/
def check_moneyness (c : OptionContract) : Bool × String :=
  if c.underlying_price = 0 then (false, "No underlying price")
  else
    let distance := |c.strike - c.underlying_price| / c.underlying_price
    if distance > 10/100 then
      (false, "Too far from money: " ++ fmtQ distance)
    else (true, "Moneyness acceptable")

/-- Model of `ImprovedFilters.apply_all_filters`: runs the seven checks, collects the
failure reasons; passes iff none failed. -/
def apply_all_filters (c : OptionContract) (price_momentum_1m : ℚ) :
    Bool × List String :=
  let checks := [
    check_volume_quality c,
    check_price_action c price_momentum_1m,
    check_time_to_expiration c,
    check_implied_volatility c,
    check_spread_quality c,
    check_greeks_quality c,
    check_moneyness c]
  let failures := (checks.filter (fun pr => ¬ pr.1)).map (fun pr => pr.2)
  (failures.length = 0, failures)

/-- Model of `options_models.ScalpSignal`.  The `timestamp` metadata field (defaulted
to `datetime.now()` at construction) and the fixed `strategy` / `timeframe`
literals are omitted: signal identity here is its decision content. -/
structure ScalpSignal where
  action : SignalAction
  contract : OptionContract
  entry : ℚ
  target : ℚ
  stop : ℚ
  confidence : ℚ
  reason : String
  deriving Repr, DecidableEq

/-- Model of `ScalpingStrategy.detect_signal`.  The wall-clock read inside
`TimeOfDayFilter.is_high_edge_window()` is the explicit `nowET` argument;
everything after that gate is a function of the contract and price history
alone (the expiration filter's time read is dead, see
`check_time_to_expiration`). -/
def detect_signal (nowET : ℕ) (contract : OptionContract)
    (price_history_1m : List ℚ) : Option ScalpSignal :=
  if ¬ is_high_edge_window nowET then none
  else if ¬ contract.pricing.is_liquid then none
  else if contract.volume_metrics.volume < 1000 then none
  else
    let delta := |contract.greeks.delta|
    if ¬ (40/100 ≤ delta ∧ delta ≤ 70/100) then none
    else if contract.pricing.ask > 10 then none
    else if price_history_1m.length < 5 then none
    else
      let price_momentum_1m := momentum price_history_1m 1
      let price_momentum_5m :=
        if price_history_1m.length ≥ 6 then momentum price_history_1m 5 else 0
      let mom :=
        if |price_momentum_1m| > |price_momentum_5m| then price_momentum_1m
        else price_momentum_5m
      if |mom| < 3/100 then none
      else if ¬ (apply_all_filters contract price_momentum_1m).1 then none
      else
        let r := rsi price_history_1m 14
        if price_momentum_1m > 3/100 ∧ 30 ≤ r ∧ r ≤ 40 ∧
            contract.greeks.delta > 0 then
          some { action := .buyCall
                 contract := contract
                 entry := contract.pricing.ask
                 target := contract.pricing.ask * (115/100)
                 stop := contract.pricing.ask * (95/100)
                 confidence := 85/100
                 reason := "Scalp: " ++ fmtQ price_momentum_1m ++
                   " momentum + RSI " ++ fmtQ r ++ " oversold + " ++
                   toString contract.volume_metrics.volume ++ " vol" }
        else if price_momentum_1m < -(3/100) ∧ 60 ≤ r ∧ r ≤ 70 ∧
            contract.greeks.delta < 0 then
          some { action := .buyPut
                 contract := contract
                 entry := contract.pricing.ask
                 target := contract.pricing.ask * (115/100)
                 stop := contract.pricing.ask * (95/100)
                 confidence := 85/100
                 reason := "Scalp: " ++ fmtQ price_momentum_1m ++
                   " momentum + RSI " ++ fmtQ r ++ " overbought + " ++
                   toString contract.volume_metrics.volume ++ " vol" }
        else if |price_momentum_5m| > 3/100 then
          let confidence : ℚ :=
            if |price_momentum_5m| > 5/100 then 80/100 else 75/100
          let action? : Option SignalAction :=
            if price_momentum_5m > 0 ∧ contract.greeks.delta > 0 then
              some .buyCall
            else if price_momentum_5m < 0 ∧ contract.greeks.delta < 0 then
              some .buyPut
            else none
          match action? with
          | none => none
          | some action =>
            some { action := action
                   contract := contract
                   entry := contract.pricing.ask
                   target := contract.pricing.ask * (120/100)
                   stop := contract.pricing.ask * (95/100)
                   confidence := confidence
                   reason := "Strong scalp: " ++ fmtQ price_momentum_5m ++
                     " 5min momentum + delta " ++ fmtQ delta }
        else none

end Strategies

section SampleInputs

open PositionTracker PaperTrading Strategies

/-- A pending paper trade: entry 100, target 110, stop 90, far expiration. -/
def sampleTrade : PaperTrade :=
  { signal_id := "sig1"
    symbol := "SPY"
    entry_price := 100
    entry_time := 0
    target_price := 110
    stop_loss := 90
    expiration := some 1000000 }

/-- A paper trade already closed at its target. -/
def sampleClosedTrade : PaperTrade :=
  { sampleTrade with
    outcome := TradeOutcome.hitTarget
    exit_price := some 110
    exit_time := some 3
    current_price := some 115
    last_update := some 3
    profit_loss := some 10
    profit_loss_percent := some 10
    highest_price := some 115 }

/-- An active tracked position: entry 100, target 110, stop 90. -/
def samplePosition : Position :=
  { position_id := "SPY_sig1_t0"
    signal_id := "sig1"
    symbol := "SPY"
    strategy := "SCALPING"
    action := "BUY_CALL"
    entry_price := 100
    entry_time := 0
    contracts_bought := 1
    target_price := 110
    stop_loss := 90
    strike := 100
    option_type := "call"
    expiration := none
    status := "active"
    current_price := some 100
    last_update := some 0
    highest_price := some 100 }

/-- The same position after a manual close at 100. -/
def sampleClosedPosition : Position :=
  PositionTracker.close_position samplePosition 100 "Manual close" 5

/-- A liquid near-the-money call that passes every scalping filter. -/
def sampleScalpContract : OptionContract :=
  { symbol := "SPY"
    strike := 100
    expiration := 20000
    option_type := "call"
    pricing := { bid := 48/10, ask := 5, last := 5, mark := 49/10 }
    volume_metrics := { volume := 1000, open_interest := 500 }
    greeks := { delta := 1/2, gamma := 5/100, theta := -(5/100),
                vega := 12/100, rho := 3/100 }
    iv_metrics := { iv := 1/2, iv_rank := 50, iv_percentile := 50 }
    underlying_price := 100 }

/-- Six 1-minute bars: +0.97% on the last bar, +4% over five bars. -/
def sampleScalpHistory : List ℚ := [100, 100, 100, 100, 103, 104]

end SampleInputs

/-! ## Theorems -/

open PositionTracker PaperTrading GreeksCalculator RiskManager Strategies

theorem update_position_status (q : Position) (p τ : ℚ) :
    (update_position q p τ).status = q.status := by
  unfold update_position
  split_ifs <;> rfl

theorem update_position_highest_active (q : Position) (p τ h : ℚ)
    (hact : q.status = "active") (hh : q.highest_price = some h) :
    (update_position q p τ).highest_price = some (max h p) := by
  simp only [update_position, hact, hh, ne_eq, not_true_eq_false, if_false]
  split_ifs with hgt
  · rw [max_eq_right hgt.le]
  · rw [max_eq_left (not_lt.mp hgt)]

theorem run_updates_highest (l : List (ℚ × ℚ)) :
    ∀ (q : Position) (h : ℚ), q.status = "active" → q.highest_price = some h →
      (run_updates q l).highest_price =
        some (l.foldl (fun a pt => max a pt.1) h) := by
  induction l with
  | nil => intro q h _ hh; simpa [run_updates] using hh
  | cons pt rest ih =>
      intro q h hact hh
      have h1 : (update_position q pt.1 pt.2).status = "active" := by
        rw [update_position_status, hact]
      have h2 := update_position_highest_active q pt.1 pt.2 h hact hh
      simpa [run_updates, List.foldl_cons] using
        ih (update_position q pt.1 pt.2) (max h pt.1) h1 h2

/-- C3: a position created by `add_position` with entry price `e` has
`highest_price = e`, and after any sequence of `update_position` calls with
prices `p1, ..., pn` (each with its own timestamp) the position's
`highest_price` equals the running maximum `max(e, p1, ..., pi)`; appending
one more update can only increase it (monotonicity). -/
theorem add_position_highest_is_running_max
    (signal_id symbol strategy action : String)
    (entry_price target_price stop_loss strike : ℚ)
    (option_type : String) (expiration : Option ℚ)
    (contracts_bought : ℕ) (notes : String) (now : ℚ) (nowStr : String)
    (l : List (ℚ × ℚ)) (pt : ℚ × ℚ) :
    (run_updates (add_position signal_id symbol strategy action entry_price
        target_price stop_loss strike option_type expiration contracts_bought
        notes now nowStr) l).highest_price
      = some (l.foldl (fun a q => max a q.1) entry_price) ∧
    (run_updates (add_position signal_id symbol strategy action entry_price
        target_price stop_loss strike option_type expiration contracts_bought
        notes now nowStr) (l ++ [pt])).highest_price
      = some (max (l.foldl (fun a q => max a q.1) entry_price) pt.1) ∧
    l.foldl (fun a q => max a q.1) entry_price ≤
      max (l.foldl (fun a q => max a q.1) entry_price) pt.1 := by
  refine ⟨run_updates_highest l _ entry_price rfl rfl, ?_, le_max_left _ _⟩
  have h := run_updates_highest (l ++ [pt]) (add_position signal_id symbol
    strategy action entry_price target_price stop_loss strike option_type
    expiration contracts_bought notes now nowStr) entry_price rfl rfl
  rw [h, List.foldl_append]
  rfl

/-- C10: `update_position` never changes a position's status or exit fields
(nor any other field besides `current_price`, `last_update`,
`highest_price`, `profit_loss`, `profit_loss_percent`); in this tracker a
position becomes closed only through an explicit `close_position` call. -/
theorem update_position_frame (q : Position) (p τ : ℚ) :
    (update_position q p τ).status = q.status ∧
    (update_position q p τ).exit_price = q.exit_price ∧
    (update_position q p τ).exit_time = q.exit_time ∧
    (update_position q p τ).exit_reason = q.exit_reason ∧
    (update_position q p τ).position_id = q.position_id ∧
    (update_position q p τ).signal_id = q.signal_id ∧
    (update_position q p τ).symbol = q.symbol ∧
    (update_position q p τ).strategy = q.strategy ∧
    (update_position q p τ).action = q.action ∧
    (update_position q p τ).entry_price = q.entry_price ∧
    (update_position q p τ).entry_time = q.entry_time ∧
    (update_position q p τ).contracts_bought = q.contracts_bought ∧
    (update_position q p τ).target_price = q.target_price ∧
    (update_position q p τ).stop_loss = q.stop_loss ∧
    (update_position q p τ).strike = q.strike ∧
    (update_position q p τ).option_type = q.option_type ∧
    (update_position q p τ).expiration = q.expiration ∧
    (update_position q p τ).breakeven_moved = q.breakeven_moved ∧
    (update_position q p τ).notes = q.notes := by
  unfold update_position
  split_ifs <;>
    exact ⟨rfl, rfl, rfl, rfl, rfl, rfl, rfl, rfl, rfl, rfl, rfl, rfl, rfl,
      rfl, rfl, rfl, rfl, rfl, rfl⟩

/-- C2: a trade or position in a terminal state is returned unchanged by the
price-update transition, for any price and time: `update_trade` is a no-op on
a non-pending paper trade and `update_position` is a no-op on a non-active
position (every field keeps its value; nothing is raised — both transitions
are total functions). -/
theorem terminal_tick_noop :
    (∀ (t : PaperTrade) (p τ : ℚ), t.outcome ≠ TradeOutcome.pending →
      update_trade t p τ = t) ∧
    (∀ (q : Position) (p τ : ℚ), q.status ≠ "active" →
      update_position q p τ = q) := by
  constructor
  · intro t p τ h
    unfold update_trade
    rw [if_pos h]
  · intro q p τ h
    unfold update_position
    rw [if_pos h]

/-- Witness for C2 at concrete terminal records. -/
theorem terminal_tick_noop_witness :
    update_trade sampleClosedTrade 999 1 = sampleClosedTrade ∧
    update_position sampleClosedPosition 999 1 = sampleClosedPosition :=
  ⟨terminal_tick_noop.1 sampleClosedTrade 999 1 (by decide),
   terminal_tick_noop.2 sampleClosedPosition 999 1 (by decide)⟩

/-- C1: on a pending trade, `update_trade` with `current_price ≥
target_price` closes the trade as `HIT_TARGET` at exactly `target_price`
(this branch is checked first, so it wins even when the stop condition holds
on the same tick); with `current_price ≤ stop_loss` and below target it
closes as `HIT_STOP` at exactly `stop_loss`. -/
theorem update_trade_autoclose (t : PaperTrade) (p τ : ℚ)
    (hpend : t.outcome = TradeOutcome.pending) :
    (p ≥ t.target_price →
      (update_trade t p τ).outcome = TradeOutcome.hitTarget ∧
      (update_trade t p τ).exit_price = some t.target_price) ∧
    (p ≤ t.stop_loss → p < t.target_price →
      (update_trade t p τ).outcome = TradeOutcome.hitStop ∧
      (update_trade t p τ).exit_price = some t.stop_loss) := by
  unfold update_trade
  rw [if_neg (by simp [hpend])]
  dsimp only
  constructor
  · intro hge
    rw [if_pos hge]
    exact ⟨rfl, rfl⟩
  · intro hle hlt
    rw [if_neg (not_le.mpr hlt), if_pos hle]
    exact ⟨rfl, rfl⟩

/-- Witness for C1: entry 100 / target 110 / stop 90; price 115 closes at
exactly 110 as a target hit, price 85 closes at exactly 90 as a stop hit. -/
theorem update_trade_autoclose_witness :
    ((update_trade sampleTrade 115 0).outcome = TradeOutcome.hitTarget ∧
      (update_trade sampleTrade 115 0).exit_price = some 110) ∧
    ((update_trade sampleTrade 85 0).outcome = TradeOutcome.hitStop ∧
      (update_trade sampleTrade 85 0).exit_price = some 90) := by
  constructor
  · have h := (update_trade_autoclose sampleTrade 115 0 rfl).1
      (by norm_num [sampleTrade])
    simpa [sampleTrade] using h
  · have h := (update_trade_autoclose sampleTrade 85 0 rfl).2
      (by norm_num [sampleTrade]) (by norm_num [sampleTrade])
    simpa [sampleTrade] using h

/-- C4 counterexample: `close_position` does not check `status`, so a second
`close_position` call on an already-closed position overwrites `exit_price`,
`exit_reason` and `profit_loss_percent` — the exit fields are NOT immutable
under every subsequent tracker operation. -/
theorem close_position_reclose_overwrites :
    sampleClosedPosition.status = "closed" ∧
    sampleClosedPosition.exit_price = some 100 ∧
    (close_position sampleClosedPosition 50 "second close" 9).exit_price
      = some 50 ∧
    (close_position sampleClosedPosition 50 "second close" 9).exit_price
      ≠ sampleClosedPosition.exit_price ∧
    (close_position sampleClosedPosition 50 "second close" 9).exit_reason
      ≠ sampleClosedPosition.exit_reason ∧
    (close_position sampleClosedPosition 50 "second close" 9).profit_loss_percent
      ≠ sampleClosedPosition.profit_loss_percent := by
  refine ⟨rfl, rfl, rfl, by decide, by decide, ?_⟩
  simp only [close_position, sampleClosedPosition, samplePosition]
  norm_num

/-- C4 amended: after `close_position` the exit fields `exit_price`,
`exit_time`, `exit_reason`, `profit_loss`, `profit_loss_percent` are all set
(non-null) and the status is `"closed"`; they are unchanged by any further
`update_position` call (and `check_exit_signals` only reads the position),
and no operation ever returns the status to `"active"` — but a further
`close_position` call overwrites the exit fields (see the
counterexample). -/
theorem close_position_terminal_fields (q : Position) (p : ℚ) (r : String)
    (τ : ℚ) :
    (close_position q p r τ).exit_price.isSome = true ∧
    (close_position q p r τ).exit_time.isSome = true ∧
    (close_position q p r τ).exit_reason.isSome = true ∧
    (close_position q p r τ).profit_loss.isSome = true ∧
    (close_position q p r τ).profit_loss_percent.isSome = true ∧
    (close_position q p r τ).status = "closed" ∧
    (∀ (p' τ' : ℚ),
      update_position (close_position q p r τ) p' τ' = close_position q p r τ) ∧
    (∀ (p' : ℚ) (r' : String) (τ' : ℚ),
      (close_position (close_position q p r τ) p' r' τ').status = "closed") := by
  refine ⟨rfl, rfl, rfl, rfl, rfl, rfl, ?_, fun _ _ _ => rfl⟩
  intro p' τ'
  unfold update_position
  rw [if_pos (by simp [close_position])]

/-- C5: with `days_to_expiration ≤ 0` the year-fraction `T = days/365` is
`≤ 0`, so `calculate_all_greeks` returns the all-zero Greeks dictionary for
every underlying price, strike, volatility, rate and option type — a defined
edge case, not an error (the function is total). -/
theorem calculate_all_greeks_expired (m : MathPrims) (S K : ℚ) (days : ℤ)
    (iv r : ℚ) (ot : String) (h : days ≤ 0) :
    calculate_all_greeks m S K days iv r ot = ⟨0, 0, 0, 0, 0⟩ := by
  unfold calculate_all_greeks
  rw [if_pos]
  rw [div_nonpos_iff]
  right
  exact ⟨by exact_mod_cast h, by norm_num⟩

/-- Witness for C5 at `days_to_expiration = 0`. -/
theorem calculate_all_greeks_expired_witness :
    calculate_all_greeks idPrims 100 100 0 (3/10) (1/20) "call"
      = ⟨0, 0, 0, 0, 0⟩ :=
  calculate_all_greeks_expired idPrims 100 100 0 (3/10) (1/20) "call"
    (le_refl 0)

theorem roundHalfEven_sub_even (q : ℚ) (m : ℤ) (hm : Even m) :
    roundHalfEven (q - m) = roundHalfEven q - m := by
  have hfl : ⌊q - (m : ℚ)⌋ = ⌊q⌋ - m := Int.floor_sub_int q m
  have hfr : q - (m : ℚ) - ((⌊q⌋ - m : ℤ) : ℚ) = q - (⌊q⌋ : ℚ) := by
    push_cast
    ring
  rw [Int.even_iff] at hm
  unfold roundHalfEven
  dsimp only
  rw [hfl, hfr]
  simp only [Int.even_iff]
  split_ifs <;> omega

theorem round4_sub_one (q : ℚ) : round4 q - round4 (q - 1) = 1 := by
  unfold round4
  have h : (q - 1) * 10000 = q * 10000 - ((10000 : ℤ) : ℚ) := by
    push_cast
    ring
  rw [h, roundHalfEven_sub_even (q * 10000) 10000 (by decide)]
  push_cast
  field_simp

/-- C6: for identical positive inputs with a positive number of days to
expiration, the call delta minus the put delta returned by
`calculate_all_greeks` equals exactly 1: both are 4-decimal roundings of
`N(d1)` and `N(d1) - 1` for the same `d1`, and rounding commutes with the
integer shift.  This holds for every choice of the math primitives. -/
theorem call_put_delta_diff_one (m : MathPrims) (S K : ℚ) (days : ℤ)
    (iv r : ℚ) (hS : 0 < S) (hK : 0 < K) (hd : 0 < days) (hiv : 0 < iv) :
    (calculate_all_greeks m S K days iv r "call").delta -
      (calculate_all_greeks m S K days iv r "put").delta = 1 := by
  unfold calculate_all_greeks
  have hT : ¬ ((days : ℚ) / 365 ≤ 0) := by
    rw [not_le]
    apply div_pos _ (by norm_num)
    exact_mod_cast hd
  rw [if_neg hT, if_neg hT]
  dsimp only
  unfold calculate_delta
  have hc : pyLower "call" = "call" := rfl
  have hp : ¬ (pyLower "put" = "call") := by decide
  rw [if_pos hc, if_neg hp]
  exact round4_sub_one _

/-- Witness for C6 at S=100, K=100, 30 days, σ=0.30, r=0.05. -/
theorem call_put_delta_diff_one_witness :
    (calculate_all_greeks idPrims 100 100 30 (3/10) (1/20) "call").delta -
      (calculate_all_greeks idPrims 100 100 30 (3/10) (1/20) "put").delta
      = 1 :=
  call_put_delta_diff_one idPrims 100 100 30 (3/10) (1/20) (by norm_num)
    (by norm_num) (by norm_num) (by norm_num)

theorem iv_loop_bounds (m : MathPrims) (op S K T r : ℚ) (ot : String)
    (tol : ℚ) : ∀ (fuel : ℕ) (iv : ℚ), 1/1000 ≤ iv → iv ≤ 5 →
    1/1000 ≤ iv_loop m op S K T r ot tol fuel iv ∧
      iv_loop m op S K T r ot tol fuel iv ≤ 5 := by
  intro fuel
  induction fuel with
  | zero =>
      intro iv h1 h2
      rw [iv_loop]
      exact ⟨h1, h2⟩
  | succ n ih =>
      intro iv h1 h2
      rw [iv_loop]
      dsimp only
      split_ifs
      · exact ⟨h1, h2⟩
      · exact ⟨le_max_left _ _, max_le (by norm_num) (min_le_left _ _)⟩
      · exact ih _ (le_max_left _ _) (max_le (by norm_num) (min_le_left _ _))

/-- C7: `calculate_implied_volatility` is a total function whose
Newton-Raphson loop runs at most `max_iterations` times by construction
(structural recursion on the remaining-iteration fuel), and for every input
— any market price, any `S > 0`, `K > 0`, any days, rate, option type,
iteration budget and tolerance, and any math primitives — the returned value
lies in the clamp interval `[0.001, 5.0]`: the initial guess `0.30` is
inside it and every Newton update is clamped back into it; loop exhaustion
returns the last iterate instead of failing. -/
theorem calculate_implied_volatility_clamped (m : MathPrims)
    (option_price S K : ℚ) (days : ℤ) (r : ℚ) (ot : String)
    (max_iterations : ℕ) (tolerance : ℚ) (hS : 0 < S) (hK : 0 < K) :
    1/1000 ≤ calculate_implied_volatility m option_price S K days r ot
        max_iterations tolerance ∧
      calculate_implied_volatility m option_price S K days r ot
        max_iterations tolerance ≤ 5 := by
  unfold calculate_implied_volatility
  exact iv_loop_bounds m option_price S K ((days : ℚ) / 365) r ot tolerance
    max_iterations (30/100) (by norm_num) (by norm_num)

/-- Witness for C7 at a concrete call (default budget 100, tolerance 1e-4). -/
theorem calculate_implied_volatility_clamped_witness :
    1/1000 ≤ calculate_implied_volatility idPrims 5 100 100 30 (1/20) "call"
        100 (1/10000) ∧
      calculate_implied_volatility idPrims 5 100 100 30 (1/20) "call"
        100 (1/10000) ≤ 5 :=
  calculate_implied_volatility_clamped idPrims 5 100 100 30 (1/20) "call" 100
    (1/10000) (by norm_num) (by norm_num)

/-- C8: `should_take_trade` rejects exactly when the daily loss limit is
breached (`daily_pnl < -balance × 0.03`, checked first) or the concurrent
trade cap is reached (`active_trades ≥ 3`), and otherwise returns
`(True, "OK")`. -/
theorem should_take_trade_circuit_breaker (pnl bal : ℚ) (n : ℕ) :
    ((should_take_trade pnl bal n).1 = false ↔
      pnl < -(bal * (3/100)) ∨ 3 ≤ n) ∧
    (¬ (pnl < -(bal * (3/100)) ∨ 3 ≤ n) →
      should_take_trade pnl bal n = (true, "OK")) := by
  unfold should_take_trade MAX_DAILY_LOSS MAX_CONCURRENT_TRADES
  dsimp only
  split_ifs with h1 h2
  · exact ⟨⟨fun _ => Or.inl h1, fun _ => rfl⟩, fun hn => absurd (Or.inl h1) hn⟩
  · exact ⟨⟨fun _ => Or.inr h2, fun _ => rfl⟩, fun hn => absurd (Or.inr h2) hn⟩
  · refine ⟨⟨fun hf => absurd hf (by decide), fun hor => ?_⟩, fun _ => rfl⟩
    rcases hor with h | h
    · exact absurd h h1
    · exact absurd h h2

/-- Witness for C8: with balance 10000 (max loss \$300) and no open trades,
daily P-L −301 is rejected while −299 is allowed with reason "OK". -/
theorem should_take_trade_circuit_breaker_witness :
    (should_take_trade (-301) 10000 0).1 = false ∧
    should_take_trade (-299) 10000 0 = (true, "OK") :=
  ⟨(should_take_trade_circuit_breaker (-301) 10000 0).1.mpr
      (Or.inl (by norm_num)),
   (should_take_trade_circuit_breaker (-299) 10000 0).2 (by
      push_neg
      exact ⟨by norm_num, by norm_num⟩)⟩

/-- C9 counterexample: `detect_signal` is NOT invariant in the invocation
time.  `ScalpingStrategy.detect_signal` reads the wall clock through
`TimeOfDayFilter.is_high_edge_window()`: on a concrete contract and history
that pass every other filter, an invocation at 10:00 ET (minute 600)
produces a signal while an invocation at 12:00 ET (minute 720) with the
identical contract and history returns `None`. -/
theorem detect_signal_time_dependent :
    (detect_signal 600 sampleScalpContract sampleScalpHistory).isSome
      = true ∧
    detect_signal 720 sampleScalpContract sampleScalpHistory = none ∧
    detect_signal 600 sampleScalpContract sampleScalpHistory ≠
      detect_signal 720 sampleScalpContract sampleScalpHistory := by
  have h1 : (detect_signal 600 sampleScalpContract sampleScalpHistory).isSome
      = true := by
    norm_num [detect_signal, is_high_edge_window, sampleScalpContract,
      sampleScalpHistory, momentum, rsi, apply_all_filters,
      check_volume_quality, check_price_action, check_time_to_expiration,
      check_implied_volatility, check_spread_quality, check_greeks_quality,
      check_moneyness, OptionPricing.is_liquid, OptionPricing.spread,
      abs_of_pos, abs_of_nonneg]
  have h2 : detect_signal 720 sampleScalpContract sampleScalpHistory
      = none := by
    norm_num [detect_signal, is_high_edge_window]
  refine ⟨h1, h2, fun heq => ?_⟩
  rw [heq, h2] at h1
  simp at h1

/-- C9 amended: the scalping evaluator keeps no mutable state — it is a pure
function of the contract, the price history and the current wall-clock time
— and the time enters only through the high-edge-window gate: any two
invocations with identical arguments whose times classify identically under
`is_high_edge_window` return the same result.  (Invocations in different
window classifications can differ, see the counterexample.) -/
theorem detect_signal_window_determined (c : OptionContract) (ps : List ℚ)
    (t1 t2 : ℕ) (h : is_high_edge_window t1 = is_high_edge_window t2) :
    detect_signal t1 c ps = detect_signal t2 c ps := by
  unfold detect_signal
  rw [h]

/-- Witness for the amended C9: minutes 600 and 615 are both inside the
morning window, so the two invocations agree. -/
theorem detect_signal_window_determined_witness :
    detect_signal 600 sampleScalpContract sampleScalpHistory =
      detect_signal 615 sampleScalpContract sampleScalpHistory :=
  detect_signal_window_determined sampleScalpContract sampleScalpHistory
    600 615 (by decide)
